import Mathlib

/-!
Shallow embedding of the customer identity-resolution core of the
`nettefatura` Go client, together with proofs about it.

Conventions of the embedding:
* Go strings are Lean `String`s; byte-level operations (the Levenshtein
  distance of `calculateSimilarityScore`) work on the UTF-8 encoding,
  computed explicitly.
* Go `float64` score arithmetic is modelled over `Rat`; every constant
  appearing in the scoring code (0.5, 0.3, 0.2) and every similarity value
  is exactly representable, and for the sums the code forms (0.3 + 0.2 and
  0.5·sim with sim = (len − dist)/len) the `float64` results coincide with
  the rational ones, so the ranking comparisons are faithful.
* HTTP transport, cookie handling and JSON decoding are abstracted into an
  `Env` record: each remote interaction is an `Except` outcome supplied by
  the environment, while everything the repository computes from those
  outcomes (validation, defaults, error formatting, filtering, scoring,
  ranking, HTML field extraction) is embedded concretely.
* Every operation additionally returns the list of remote calls it issued,
  in order, so that statements about "no network call" or "no detail fetch"
  are about an explicit trace.
-/

namespace Nettefatura

/-! ## Go string primitives (`strings.ToLower`, `strings.TrimSpace`, `strings.Contains`) -/

/-- Model of Go `unicode` white space as used by `strings.TrimSpace`,
restricted to the characters occurring in this repository's data:
space, tab, newline, vertical tab, form feed, carriage return, NEL and NBSP. -/
def goIsSpace (c : Char) : Bool :=
  c.toNat = 32 || c.toNat = 9 || c.toNat = 10 || c.toNat = 11 ||
  c.toNat = 12 || c.toNat = 13 || c.toNat = 133 || c.toNat = 160

/-- Model of Go `strings.TrimSpace`. -/
def goTrimSpace (s : String) : String :=
  ⟨((s.data.dropWhile goIsSpace).reverse.dropWhile goIsSpace).reverse⟩

/-- Model of the Unicode simple lower-case mapping used by Go
`strings.ToLower`, restricted to ASCII and the Turkish upper-case letters
this repository manipulates (Ğ Ü Ş Ö Ç İ); other characters are unchanged. -/
def goLowerChar (c : Char) : Char :=
  if 65 ≤ c.toNat && c.toNat ≤ 90 then Char.ofNat (c.toNat + 32)
  else if c = 'Ğ' then 'ğ'
  else if c = 'Ü' then 'ü'
  else if c = 'Ş' then 'ş'
  else if c = 'Ö' then 'ö'
  else if c = 'Ç' then 'ç'
  else if c = 'İ' then 'i'
  else c

/-- Model of Go `strings.ToLower`. -/
def goToLower (s : String) : String :=
  ⟨s.data.map goLowerChar⟩

/-- Decides whether `p` is an initial segment of `l`. -/
def listStartsWith : List Char → List Char → Bool
  | [], _ => true
  | _ :: _, [] => false
  | p :: ps, c :: cs => p = c && listStartsWith ps cs

/-- Decides whether `sub` occurs contiguously inside `l`. -/
def listContainsSub (sub : List Char) : List Char → Bool
  | [] => listStartsWith sub []
  | c :: cs => listStartsWith sub (c :: cs) || listContainsSub sub cs

/-- Model of Go `strings.Contains s sub` (character level; on valid UTF-8 the
byte-level search of Go agrees, since UTF-8 is self-synchronising). -/
def containsSubstr (s sub : String) : Bool :=
  listContainsSub sub.data s.data

/-- Model of `parseIntOrZero`: `fmt.Sscanf(s, "%d", &result)` leaves 0 when no
integer can be read; otherwise it skips leading spaces, reads an optional
sign and the longest digit run. -/
def parseIntOrZero (s : String) : Int :=
  let l := s.data.dropWhile goIsSpace
  let (neg, l) :=
    match l with
    | '-' :: rest => (true, rest)
    | '+' :: rest => (false, rest)
    | _ => (false, l)
  let digits := l.takeWhile Char.isDigit
  if digits = [] then 0
  else
    let n : Nat := digits.foldl (fun acc c => acc * 10 + (c.toNat - 48)) 0
    if neg then -(n : Int) else (n : Int)

/-! ## UTF-8 encoding (Go `len` and indexing on strings are byte based) -/

/-- UTF-8 encoding of a single code point, as a list of byte values. -/
def utf8EncodeCharNat (c : Char) : List Nat :=
  let n := c.toNat
  if n < 0x80 then [n]
  else if n < 0x800 then [0xC0 + n / 0x40, 0x80 + n % 0x40]
  else if n < 0x10000 then
    [0xE0 + n / 0x1000, 0x80 + (n / 0x40) % 0x40, 0x80 + n % 0x40]
  else
    [0xF0 + n / 0x40000, 0x80 + (n / 0x1000) % 0x40,
     0x80 + (n / 0x40) % 0x40, 0x80 + n % 0x40]

/-- UTF-8 byte sequence of a string. -/
def utf8Bytes (s : String) : List Nat :=
  s.data.foldr (fun c acc => utf8EncodeCharNat c ++ acc) []

/-! ## `levenshteinDistance` and `calculateSimilarityScore` -/

/-- Embeds the Go helper `min` over three values. -/
def min3 (a b c : Nat) : Nat :=
  if a < b then (if a < c then a else c)
  else (if b < c then b else c)

/-- Computes the tail of the next row of the Levenshtein matrix for row
character `x`: `prev` is the previous row starting at the diagonal cell,
`left` the value just written to the new row. -/
def levRowAux (x : Nat) : List Nat → List Nat → Nat → List Nat
  | _, [], _ => []
  | prev, y :: ys, left =>
    match prev with
    | diag :: up :: rest =>
      let cost := if x = y then 0 else 1
      let v := min3 (up + 1) (left + 1) (diag + cost)
      v :: levRowAux x (up :: rest) ys v
    | _ => []

/-- Runs the row-by-row dynamic programming of `levenshteinDistance`:
`row` is the matrix row for the first `i - 1` characters of the first
string. -/
def levRows (s2 : List Nat) : List Nat → List Nat → Nat → List Nat
  | [], row, _ => row
  | x :: xs, row, i => levRows s2 xs (i :: levRowAux x row s2 i) (i + 1)

/-- Embeds `levenshteinDistance` (classic dynamic-programming table over the
byte sequences, insertion/deletion/substitution cost 1). -/
def levenshteinDistance (s1 s2 : List Nat) : Nat :=
  if s1 = [] then s2.length
  else if s2 = [] then s1.length
  else (levRows s2 s1 (List.range (s2.length + 1)) 1).getLast?.getD 0

/-- Embeds `calculateSimilarityScore`: trim and case-fold both strings,
return 1 when equal, 0 when exactly one side is empty, and otherwise
`(maxLen − editDistance) / maxLen` over the UTF-8 byte lengths. -/
def calculateSimilarityScore (s1 s2 : String) : Rat :=
  let t1 := goToLower (goTrimSpace s1)
  let t2 := goToLower (goTrimSpace s2)
  if t1 = t2 then 1
  else if t1 = "" || t2 = "" then 0
  else
    let b1 := utf8Bytes t1
    let b2 := utf8Bytes t2
    let longer := if b1.length < b2.length then b2 else b1
    let shorter := if b1.length < b2.length then b1 else b2
    let longerLength : Rat := (longer.length : Rat)
    if longerLength = 0 then 1
    else (longerLength - (levenshteinDistance longer shorter : Rat)) / longerLength

/-! ## Data model -/

/-- Embeds the `Customer` input record (field for field). -/
structure Customer where
  Name : String
  TaxNumber : String
  Email : String
  Phone : String
  Address : String
  CityID : String
  CityName : String
  DistrictID : String
  PostalCode : String
  BuildingNo : String
  TaxOfficeID : String
  CustomerType : Int
  SendingType : Int
deriving DecidableEq, Repr

/-- The Go zero value `Customer{}` (all strings empty, all ints 0). -/
def emptyCustomer : Customer :=
  { Name := "", TaxNumber := "", Email := "", Phone := "", Address := ""
  , CityID := "", CityName := "", DistrictID := "", PostalCode := ""
  , BuildingNo := "", TaxOfficeID := "", CustomerType := 0, SendingType := 0 }

/-- Embeds `RecipientListItem`, restricted to the fields the resolution core
reads (`IdAlici`, `AliciAdi`, `IdIl`, `IdIlce`); the remaining JSON payload
fields are never inspected by the code under study. -/
structure RecipientListItem where
  IdAlici : Int
  AliciAdi : String
  IdIl : Int
  IdIlce : Int
deriving DecidableEq, Repr

/-- The decoded JSON object of a `/Recipient/Create` response: the two
error-carrying fields when present as strings, the numeric `IdAlici` field
when present (always integral in practice; `%.0f` formatting is modelled by
`toString` on the integer), and the raw body text used in the
id-missing error message. -/
structure CreateResp where
  errorField : Option String
  errorMessageField : Option String
  idAlici : Option Int
  rawBody : String

/-- The mutable client state: the stored anti-forgery token. -/
structure ClientState where
  token : String
deriving DecidableEq, Repr

/-- One remote interaction, as recorded in a call trace. -/
inductive Call where
  | tokenGet
  | createPost (form : Customer)
  | listPost (limit : Int)
  | detailGet (id : Int)
deriving DecidableEq, Repr

/-- The remote world an execution runs against.  Each field is the outcome
of the corresponding HTTP interaction: `tokenResult` is the token-page GET
plus token extraction (error covers transport failure and the
token-not-found case), `createOutcome` the create POST plus JSON decode
(the error string is the already-formatted transport/decode message),
`listOutcome` the decoded `data` array of the list POST, and `detailHtml`
the body of the detail GET for a given recipient id. -/
structure Env where
  tokenResult : Except String String
  createOutcome : Except String CreateResp
  listOutcome : Except String (List RecipientListItem)
  detailHtml : Int → Except String String

/-! ## `CreateCustomer` -/

/-- The local validation block of `CreateCustomer`, in source order. -/
def localValidationError (customer : Customer) : Option String :=
  if customer.Name = "" then some "müşteri adı zorunludur"
  else if customer.TaxNumber = "" then some "TC kimlik no zorunludur"
  else if customer.SendingType = 1 && customer.Email = "" then
    some "elektronik gönderim için e-posta zorunludur"
  else none

/-- The default-value block of `CreateCustomer`, in source order. -/
def applyDefaults (customer : Customer) : Customer :=
  let c := if customer.CustomerType = 0 then { customer with CustomerType := 1 } else customer
  let c := if c.SendingType = 0 then { c with SendingType := 1 } else c
  let c := if c.TaxOfficeID = "" then { c with TaxOfficeID := "-1" } else c
  if c.BuildingNo = "" then { c with BuildingNo := "1" } else c

/-- A string-typed JSON field that is present and non-empty (the
`ok && errorMsg != ""` test of the source). -/
def nonEmptyStringField (o : Option String) : Option String :=
  match o with
  | some msg => if msg = "" then none else some msg
  | none => none

/-- The response-interpretation tail of `CreateCustomer`: check `error`,
then `ErrorMessage`, then require the numeric `IdAlici`. -/
def interpretCreateResponse (resp : CreateResp) : Except String String :=
  match nonEmptyStringField resp.errorField with
  | some msg => .error ("müşteri oluşturma hatası: " ++ msg)
  | none =>
    match nonEmptyStringField resp.errorMessageField with
    | some msg => .error ("müşteri oluşturma hatası: " ++ msg)
    | none =>
      match resp.idAlici with
      | some n => .ok (toString n)
      | none => .error ("müşteri ID bulunamadı: " ++ resp.rawBody)

/-- Embeds `CreateCustomer`: refresh the token (a GET, recorded in the
trace; on success the token is overwritten), then validate locally, then
apply defaults and submit the form POST, then interpret the response. -/
def CreateCustomer (env : Env) (st : ClientState) (customer : Customer) :
    Except String String × ClientState × List Call :=
  match env.tokenResult with
  | .error e => (.error ("token güncellenemedi: " ++ e), st, [.tokenGet])
  | .ok tok =>
    let st1 : ClientState := { token := tok }
    match localValidationError customer with
    | some msg => (.error msg, st1, [.tokenGet])
    | none =>
      let form := applyDefaults customer
      match env.createOutcome with
      | .error e => (.error e, st1, [.tokenGet, .createPost form])
      | .ok resp => (interpretCreateResponse resp, st1, [.tokenGet, .createPost form])

/-! ## `GetRecipientList` and `GetRecipientDetail` -/

/-- Embeds `GetRecipientList`: default the limit to 200 when non-positive,
then issue the list POST; the environment supplies the decoded row array
or the already-formatted transport/decode error. -/
def GetRecipientList (env : Env) (limit : Int) :
    Except String (List RecipientListItem) × List Call :=
  let limit := if limit ≤ 0 then 200 else limit
  (env.listOutcome, [.listPost limit])

/-- White space as matched by a backslash-s class in a Go regular
expression: tab, newline, form feed, carriage return, space. -/
def regexSpace (c : Char) : Bool :=
  c.toNat = 9 || c.toNat = 10 || c.toNat = 12 || c.toNat = 13 || c.toNat = 32

/-- Consumes the literal `pat` from the front of `l`, returning the rest. -/
def dropLiteral : List Char → List Char → Option (List Char)
  | [], l => some l
  | _ :: _, [] => none
  | p :: ps, c :: cs => if c = p then dropLiteral ps cs else none

/-- Returns the first position (scanning left to right) where `f` succeeds,
giving leftmost-match semantics to the pattern matchers below. -/
def scanFirst {α : Type} (f : List Char → Option α) : List Char → Option α
  | [] => none
  | c :: rest =>
    match f (c :: rest) with
    | some r => some r
    | none => scanFirst f rest

/-- Matches, at the current position, the detail-page field pattern
`id="<field>"` followed by white space, `value="`, a non-empty run of
non-quote characters (the capture), and the closing quote. -/
def matchInputAt (pat : List Char) (l : List Char) : Option String :=
  match dropLiteral pat l with
  | none => none
  | some rest =>
    if rest.takeWhile regexSpace = [] then none
    else
      match dropLiteral "value=\"".data (rest.dropWhile regexSpace) with
      | none => none
      | some rest2 =>
        let cap := rest2.takeWhile (fun c => c ≠ '"')
        if cap = [] then none
        else
          match rest2.dropWhile (fun c => c ≠ '"') with
          | '"' :: _ => some ⟨cap⟩
          | _ => none

/-- Embeds one `id="<field>"\s+value="([^"]+)"` extraction of
`GetRecipientDetail` (leftmost match, first capture). -/
def extractInput (field : String) (html : String) : Option String :=
  scanFirst (matchInputAt ("id=\"" ++ field ++ "\"").data) html.data

/-- Matches, at the current position, the selected-option pattern
`<option\s+value="(\d+)"\s+selected>([^<]+)</option>` of the city
extraction, returning both captures. -/
def matchOptionAt (l : List Char) : Option (String × String) :=
  match dropLiteral "<option".data l with
  | none => none
  | some r1 =>
    if r1.takeWhile regexSpace = [] then none
    else
      match dropLiteral "value=\"".data (r1.dropWhile regexSpace) with
      | none => none
      | some r2 =>
        let ds := r2.takeWhile Char.isDigit
        if ds = [] then none
        else
          match r2.drop ds.length with
          | '"' :: r3 =>
            if r3.takeWhile regexSpace = [] then none
            else
              match dropLiteral "selected>".data (r3.dropWhile regexSpace) with
              | none => none
              | some r4 =>
                let nm := r4.takeWhile (fun c => c ≠ '<')
                if nm = [] then none
                else
                  match dropLiteral "</option>".data (r4.drop nm.length) with
                  | some _ => some (⟨ds⟩, ⟨nm⟩)
                  | none => none
          | _ => none

/-- Scans for the option pattern while the (non-greedy) gap stays on one
line, modelling the dot-star between `id="CityId"` and the option markup
(a dot does not match a newline in a Go regular expression). -/
def scanOptionNoNewline : List Char → Option (String × String)
  | [] => none
  | c :: rest =>
    match matchOptionAt (c :: rest) with
    | some r => some r
    | none => if c = '\n' then none else scanOptionNoNewline rest

/-- Matches, at the current position, the city pattern of
`GetRecipientDetail`: the literal `id="CityId"` and then the nearest
selected-option markup on the same line. -/
def matchCityAt (l : List Char) : Option (String × String) :=
  match dropLiteral "id=\"CityId\"".data l with
  | none => none
  | some rest => scanOptionNoNewline rest

/-- Embeds the city extraction regular expression (leftmost match). -/
def extractCity (html : String) : Option (String × String) :=
  scanFirst matchCityAt html.data

/-- Applies one optional field extraction to the customer record being
built, mirroring the `if matches := ...; len(matches) > 1 { assign }`
blocks of `GetRecipientDetail`. -/
def applyField (v : Option String) (f : String → Customer → Customer)
    (c : Customer) : Customer :=
  match v with
  | some s => f s c
  | none => c

/-- Applies the optional city extraction (two captures). -/
def applyCityField (v : Option (String × String)) (c : Customer) : Customer :=
  match v with
  | some p => { c with CityID := p.1, CityName := goTrimSpace p.2 }
  | none => c

/-- Embeds the HTML scraping of `GetRecipientDetail`: each field whose
pattern matches is filled in, all others stay at the zero value; the
district is never extracted (the source leaves it empty by design). -/
def parseRecipientDetailHtml (html : String) : Customer :=
  applyCityField (extractCity html)
    (applyField (extractInput "BinaNo" html) (fun s c => { c with BuildingNo := s })
      (applyField (extractInput "PostaKodu" html) (fun s c => { c with PostalCode := s })
        (applyField (extractInput "SokakAdi" html) (fun s c => { c with Address := s })
          (applyField (extractInput "Telefon" html) (fun s c => { c with Phone := s })
            (applyField (extractInput "Email" html) (fun s c => { c with Email := s })
              (applyField (extractInput "VknTckn" html) (fun s c => { c with TaxNumber := s })
                (applyField (extractInput "AliciAdi" html)
                  (fun s c => { c with Name := goTrimSpace s }) emptyCustomer)))))))

/-- Embeds `GetRecipientDetail`: issue the detail GET and scrape the body;
only a transport failure makes the call fail. -/
def GetRecipientDetail (env : Env) (recipientID : Int) :
    Except String Customer × List Call :=
  match env.detailHtml recipientID with
  | .error e => (.error ("müşteri detay isteği başarısız: " ++ e), [.detailGet recipientID])
  | .ok html => (.ok (parseRecipientDetailHtml html), [.detailGet recipientID])

/-! ## `CreateCustomerOrGetExisting` -/

/-- The fixed free-text duplicate signal. -/
def dupSignal : String := "zaten kayıtlıdır"

/-- The exact-name filter of the fallback path: keep the listed recipients
whose trimmed, case-folded name equals the customer's. -/
def matchesOf (data : List RecipientListItem) (customer : Customer) :
    List RecipientListItem :=
  data.filter (fun r =>
    goToLower (goTrimSpace r.AliciAdi) = goToLower (goTrimSpace customer.Name))

/-- The composite score of one candidate, as computed in the loop body of
`CreateCustomerOrGetExisting`: when the detail fetch errors, 0.3 for a
matching city id and 0.2 for a matching district id from the listing row;
when it succeeds, 0.5 times the address similarity plus 0.3 and 0.2 for
city and district id equality of the scraped detail. -/
def scoreMatch (env : Env) (customer : Customer) (m : RecipientListItem) : Rat :=
  match (GetRecipientDetail env m.IdAlici).1 with
  | .error _ =>
    (if m.IdIl = parseIntOrZero customer.CityID then (3 : Rat)/10 else 0) +
    (if m.IdIlce = parseIntOrZero customer.DistrictID then (2 : Rat)/10 else 0)
  | .ok detail =>
    calculateSimilarityScore detail.Address customer.Address * ((1 : Rat)/2) +
    (if detail.CityID = customer.CityID then (3 : Rat)/10 else 0) +
    (if detail.DistrictID = customer.DistrictID then (2 : Rat)/10 else 0)

/-- The scored candidate list: one entry per match, in order, whether or
not its detail fetch succeeded. -/
def scoredOf (env : Env) (customer : Customer) (ms : List RecipientListItem) :
    List (RecipientListItem × Rat) :=
  ms.map (fun m => (m, scoreMatch env customer m))

/-- The selection loop: start from the first scored candidate and replace
the current best whenever a later candidate scores strictly higher. -/
def pickBest (best : RecipientListItem × Rat) :
    List (RecipientListItem × Rat) → RecipientListItem × Rat
  | [] => best
  | sm :: rest => pickBest (if best.2 < sm.2 then sm else best) rest

/-- Embeds `CreateCustomerOrGetExisting`: try `CreateCustomer`; on an error
containing the duplicate signal, list up to 500 recipients, filter by
normalized name and branch on 0/1/many matches, scoring and ranking in the
many case; any other error is returned unchanged. -/
def CreateCustomerOrGetExisting (env : Env) (st : ClientState)
    (customer : Customer) : Except String String × ClientState × List Call :=
  match CreateCustomer env st customer with
  | (.ok customerID, st1, tr) => (.ok customerID, st1, tr)
  | (.error err, st1, tr) =>
    if containsSubstr err dupSignal then
      match GetRecipientList env 500 with
      | (.error listErr, ltr) =>
        (.error ("müşteri listesi alınamadı: " ++ listErr), st1, tr ++ ltr)
      | (.ok data, ltr) =>
        match matchesOf data customer with
        | [] =>
          (.error ("müşteri zaten kayıtlı ancak listede bulunamadı: " ++ customer.Name),
           st1, tr ++ ltr)
        | [m] => (.ok (toString m.IdAlici), st1, tr ++ ltr)
        | m0 :: m1 :: rest =>
          let ms := m0 :: m1 :: rest
          let dtr := ms.map (fun m => Call.detailGet m.IdAlici)
          match scoredOf env customer ms with
          | [] => (.ok (toString m0.IdAlici), st1, tr ++ ltr ++ dtr)
          | b :: restScored =>
            (.ok (toString (pickBest b restScored).1.IdAlici), st1, tr ++ ltr ++ dtr)
    else (.error err, st1, tr)

/-! ## Locality lookup (`normalizeString`, `GetDistrictID`)

The static province/district dataset is an embedded JSON asset that is not
part of the source tree, so the lookup functions are parametrised by the
decoded dataset; the Go map of district lists is modelled as an
association list used only through key lookup. -/

/-- Embeds `City`. -/
structure City where
  ID : String
  Name : String
deriving DecidableEq, Repr

/-- Embeds `District`. -/
structure District where
  ID : Int
  Name : String
deriving DecidableEq, Repr

/-- Embeds `IlIlceData` (the decoded dataset). -/
structure IlIlceData where
  cities : List City
  districts : List (String × List District)
deriving DecidableEq, Repr

/-- The Turkish-diacritic folding table of `normalizeString`
(`strings.NewReplacer` with single-character rules). -/
def turkishFold (c : Char) : Char :=
  if c = 'ğ' then 'g'
  else if c = 'ü' then 'u'
  else if c = 'ş' then 's'
  else if c = 'ı' then 'i'
  else if c = 'ö' then 'o'
  else if c = 'ç' then 'c'
  else if c = 'İ' then 'i'
  else if c = 'I' then 'i'
  else if c = 'Ğ' then 'g'
  else if c = 'Ü' then 'u'
  else if c = 'Ş' then 's'
  else if c = 'Ö' then 'o'
  else if c = 'Ç' then 'c'
  else c

/-- Embeds `normalizeString`: lower-case, trim, then fold diacritics. -/
def normalizeString (s : String) : String :=
  ⟨(goTrimSpace (goToLower s)).data.map turkishFold⟩

/-- The Go map index `locationData.Districts[cityID]`. -/
def lookupDistricts (data : IlIlceData) (cityID : String) :
    Option (List District) :=
  (data.districts.find? (fun p => p.1 = cityID)).map (fun p => p.2)

/-- The first loop of `GetDistrictID`: each district is tested first for
containing "merkez" (only relevant when the raw input contains "merkez"),
then for exact normalized equality. -/
def districtScanOne (flag : Bool) (normalized : String) :
    List District → Option Int
  | [] => none
  | d :: rest =>
    if containsSubstr (normalizeString d.Name) "merkez" && flag then some d.ID
    else if normalizeString d.Name = normalized then some d.ID
    else districtScanOne flag normalized rest

/-- The city-name loop of `GetDistrictID` (first id match wins, empty
string when absent). -/
def findCityNameLoop : List City → String → String
  | [], _ => ""
  | c :: rest, cityID => if c.ID = cityID then c.Name else findCityNameLoop rest cityID

/-- The second loop of `GetDistrictID`: a district containing "merkez" and
the normalized province name. -/
def districtScanMerkezCity (cityNorm : String) : List District → Option Int
  | [] => none
  | d :: rest =>
    if containsSubstr (normalizeString d.Name) "merkez" &&
       containsSubstr (normalizeString d.Name) cityNorm then some d.ID
    else districtScanMerkezCity cityNorm rest

/-- The third loop of `GetDistrictID`: any district containing "merkez". -/
def districtScanMerkez : List District → Option Int
  | [] => none
  | d :: rest =>
    if containsSubstr (normalizeString d.Name) "merkez" then some d.ID
    else districtScanMerkez rest

/-- Embeds `GetDistrictID` over the decoded dataset. -/
def GetDistrictID (data : IlIlceData) (cityID districtName : String) : Int :=
  match lookupDistricts data cityID with
  | none => -1
  | some districts =>
    let normalized := normalizeString districtName
    let isLookingForMerkez := containsSubstr districtName (normalizeString "Merkez")
    match districtScanOne isLookingForMerkez normalized districts with
    | some id => id
    | none =>
      let cityName := findCityNameLoop data.cities cityID
      if cityName ≠ "" then
        let cityNameNormalized := normalizeString cityName
        if normalized = cityNameNormalized then
          match districtScanMerkezCity cityNameNormalized districts with
          | some id => id
          | none =>
            match districtScanMerkez districts with
            | some id => id
            | none => -1
        else -1
      else -1

/-! ## Concrete fixtures used by examples, witnesses and counterexamples -/

/-- A client state holding a previously stored token. -/
def exSt : ClientState := { token := "T1" }

/-- The customer of the worked disambiguation example (city id 28,
district id 413). -/
def custC3 : Customer := { emptyCustomer with
  Name := "test", TaxNumber := "11111111111", Email := "t@example.com",
  CityID := "28", DistrictID := "413" }

/-- Listed candidate 1 of the worked example. -/
def cand1 : RecipientListItem :=
  { IdAlici := 1, AliciAdi := "test", IdIl := 28, IdIlce := 413 }

/-- Listed candidate 2 of the worked example. -/
def cand2 : RecipientListItem :=
  { IdAlici := 2, AliciAdi := "test", IdIl := 6, IdIlce := 100 }

/-- An environment in which creation reports the duplicate signal, the
listing returns the two candidates and both detail fetches fail. -/
def envC3 : Env :=
  { tokenResult := .ok "tok"
  , createOutcome := .ok { errorField := some "Bu müşteri zaten kayıtlıdır"
                         , errorMessageField := none, idAlici := none, rawBody := "" }
  , listOutcome := .ok [cand1, cand2]
  , detailHtml := fun _ => .error "bağlantı hatası" }

/-- The error message `CreateCustomer` produces in `envC3`. -/
def errC3 : String := "müşteri oluşturma hatası: Bu müşteri zaten kayıtlıdır"

/-- Like `envC3` but with every detail fetch succeeding on an empty body. -/
def envDetailOk : Env := { envC3 with detailHtml := fun _ => .ok "" }

/-! ## Claim C9 — similarity score against the empty string -/

/-- The claim fails on the all-blank string: `" "` is non-empty, yet both
sides trim to the empty string, the equality branch fires and the score is
1, not 0. -/
theorem calculateSimilarityScore_blank_cex :
    (" " : String) ≠ "" ∧ calculateSimilarityScore " " "" = 1 ∧
      calculateSimilarityScore " " "" ≠ 0 := by
  refine ⟨by decide, by decide, by decide⟩

/-- C9 (amended): for every string whose trimmed, case-folded form is
non-empty, the similarity against the empty string is 0 on both sides. -/
theorem calculateSimilarityScore_empty (a : String)
    (h : goToLower (goTrimSpace a) ≠ "") :
    calculateSimilarityScore a "" = 0 ∧ calculateSimilarityScore "" a = 0 := by
  have h0 : goToLower (goTrimSpace "") = "" := rfl
  constructor
  · simp only [calculateSimilarityScore, h0]
    rw [if_neg h]
    simp
  · simp only [calculateSimilarityScore, h0]
    rw [if_neg (fun hh => h hh.symm)]
    simp

/-- Witness: the amended C9 statement applied to the concrete string
`"abc"`. -/
theorem calculateSimilarityScore_empty_witness :
    goToLower (goTrimSpace "abc") ≠ "" ∧
      calculateSimilarityScore "abc" "" = 0 ∧ calculateSimilarityScore "" "abc" = 0 :=
  ⟨by decide, calculateSimilarityScore_empty "abc" (by decide)⟩

/-! ## Claim C10 — the detail page never yields a district -/

/-- Each single-capture field assignment of the detail parser leaves the
district untouched. -/
theorem applyField_DistrictID (v : Option String) (f : String → Customer → Customer)
    (hf : ∀ s c, (f s c).DistrictID = c.DistrictID) (c : Customer) :
    (applyField v f c).DistrictID = c.DistrictID := by
  cases v with
  | none => rfl
  | some s => exact hf s c

/-- The city assignment of the detail parser leaves the district
untouched. -/
theorem applyCityField_DistrictID (v : Option (String × String)) (c : Customer) :
    (applyCityField v c).DistrictID = c.DistrictID := by
  cases v <;> rfl

/-- The scraped customer record always has an empty district. -/
theorem parseDetail_DistrictID (html : String) :
    (parseRecipientDetailHtml html).DistrictID = "" := by
  unfold parseRecipientDetailHtml applyField applyCityField
  cases extractInput "AliciAdi" html <;>
  cases extractInput "VknTckn" html <;>
  cases extractInput "Email" html <;>
  cases extractInput "Telefon" html <;>
  cases extractInput "SokakAdi" html <;>
  cases extractInput "PostaKodu" html <;>
  cases extractInput "BinaNo" html <;>
  cases extractCity html <;> rfl

/-- C10: `GetRecipientDetail` never scrapes a district, so every customer
record it returns has `DistrictID = ""`; consequently, in the
detail-available scoring mode the 0.2 district term is awarded exactly
when the input customer's own district id is the empty string. -/
theorem getRecipientDetail_district_empty :
    (∀ html, (parseRecipientDetailHtml html).DistrictID = "")
    ∧ (∀ env id detail, (GetRecipientDetail env id).1 = .ok detail →
        detail.DistrictID = "")
    ∧ (∀ env customer m html, env.detailHtml m.IdAlici = .ok html →
        scoreMatch env customer m =
          calculateSimilarityScore (parseRecipientDetailHtml html).Address
              customer.Address * ((1 : Rat)/2)
          + (if (parseRecipientDetailHtml html).CityID = customer.CityID then
              (3 : Rat)/10 else 0)
          + (if customer.DistrictID = "" then (2 : Rat)/10 else 0)) := by
  refine ⟨parseDetail_DistrictID, ?_, ?_⟩
  · intro env id detail h
    unfold GetRecipientDetail at h
    cases hd : env.detailHtml id with
    | error e => rw [hd] at h; exact absurd h (by simp)
    | ok html =>
      rw [hd] at h
      simp only [Except.ok.injEq] at h
      rw [← h]
      exact parseDetail_DistrictID html
  · intro env customer m html h
    unfold scoreMatch GetRecipientDetail
    rw [h]
    simp only [parseDetail_DistrictID]
    congr 1
    rcases eq_or_ne customer.DistrictID "" with he | he
    · rw [he]
    · rw [if_neg (fun hh => he hh.symm), if_neg he]

/-- Witness: C10 applied in an environment whose detail fetch returns an
empty page for recipient 5. -/
theorem getRecipientDetail_district_empty_witness :
    scoreMatch envDetailOk emptyCustomer cand1 =
      calculateSimilarityScore (parseRecipientDetailHtml "").Address
          emptyCustomer.Address * ((1 : Rat)/2)
      + (if (parseRecipientDetailHtml "").CityID = emptyCustomer.CityID then
          (3 : Rat)/10 else 0)
      + (if emptyCustomer.DistrictID = "" then (2 : Rat)/10 else 0) :=
  getRecipientDetail_district_empty.2.2 envDetailOk emptyCustomer cand1 "" rfl

/-! ## Claim C3 — the two scoring modes and the worked example -/

/-- C3: with a successful detail fetch a candidate scores
0.5·sim(address) + 0.3·[city] + 0.2·[district] over the scraped detail;
with a failing detail fetch it scores 0.3·[city] + 0.2·[district] over
the listing row; and on the worked example (both detail fetches failing)
candidate 1 scores 0.5, candidate 2 scores 0, and id 1 is returned. -/
theorem scoreMatch_modes_and_example :
    (∀ env customer m html, env.detailHtml m.IdAlici = .ok html →
        scoreMatch env customer m =
          calculateSimilarityScore (parseRecipientDetailHtml html).Address
              customer.Address * ((1 : Rat)/2)
          + (if (parseRecipientDetailHtml html).CityID = customer.CityID then
              (3 : Rat)/10 else 0)
          + (if (parseRecipientDetailHtml html).DistrictID = customer.DistrictID then
              (2 : Rat)/10 else 0))
    ∧ (∀ env customer m e, env.detailHtml m.IdAlici = .error e →
        scoreMatch env customer m =
          (if m.IdIl = parseIntOrZero customer.CityID then (3 : Rat)/10 else 0)
          + (if m.IdIlce = parseIntOrZero customer.DistrictID then (2 : Rat)/10 else 0))
    ∧ scoreMatch envC3 custC3 cand1 = (1 : Rat)/2
    ∧ scoreMatch envC3 custC3 cand2 = 0
    ∧ (CreateCustomerOrGetExisting envC3 exSt custC3).1 = .ok "1" := by
  have h1 : scoreMatch envC3 custC3 cand1 = (1 : Rat)/2 := by
    show (3 : Rat)/10 + (2 : Rat)/10 = (1 : Rat)/2
    norm_num
  have h2 : scoreMatch envC3 custC3 cand2 = (0 : Rat) := by
    show (0 : Rat) + (0 : Rat) = (0 : Rat)
    norm_num
  refine ⟨?_, ?_, h1, h2, ?_⟩
  · intro env customer m html h
    unfold scoreMatch GetRecipientDetail
    rw [h]
  · intro env customer m e h
    unfold scoreMatch GetRecipientDetail
    rw [h]
  · have hres : (CreateCustomerOrGetExisting envC3 exSt custC3).1 =
        .ok (toString (pickBest (cand1, scoreMatch envC3 custC3 cand1)
          [(cand2, scoreMatch envC3 custC3 cand2)]).1.IdAlici) := rfl
    rw [h1, h2] at hres
    have hpick : pickBest (cand1, (1 : Rat)/2) [(cand2, (0 : Rat))] = (cand1, (1 : Rat)/2) := by
      simp only [pickBest]
      norm_num
    rw [hres, hpick]
    rfl

/-- Witness: both scoring modes applied at concrete inputs (candidate 1
against the failing-fetch environment, and against the environment whose
detail page is empty). -/
theorem scoreMatch_modes_and_example_witness :
    scoreMatch envDetailOk custC3 cand1 =
      calculateSimilarityScore (parseRecipientDetailHtml "").Address
          custC3.Address * ((1 : Rat)/2)
      + (if (parseRecipientDetailHtml "").CityID = custC3.CityID then
          (3 : Rat)/10 else 0)
      + (if (parseRecipientDetailHtml "").DistrictID = custC3.DistrictID then
          (2 : Rat)/10 else 0)
    ∧ scoreMatch envC3 custC3 cand1 =
        (if cand1.IdIl = parseIntOrZero custC3.CityID then (3 : Rat)/10 else 0)
        + (if cand1.IdIlce = parseIntOrZero custC3.DistrictID then (2 : Rat)/10 else 0) :=
  ⟨scoreMatch_modes_and_example.1 envDetailOk custC3 cand1 "" rfl,
   scoreMatch_modes_and_example.2.1 envC3 custC3 cand1 "bağlantı hatası" rfl⟩

/-! ## Helper lemmas about traces and the selection loop -/

/-- The trace of `CreateCustomer` is the token GET, possibly followed by
the create POST carrying the defaulted form. -/
theorem createCustomer_trace (env : Env) (st : ClientState) (customer : Customer) :
    (CreateCustomer env st customer).2.2 = [Call.tokenGet]
    ∨ (CreateCustomer env st customer).2.2 =
        [Call.tokenGet, Call.createPost (applyDefaults customer)] := by
  unfold CreateCustomer
  cases env.tokenResult with
  | error e => left; rfl
  | ok tok =>
    cases localValidationError customer with
    | some msg => left; rfl
    | none =>
      cases env.createOutcome with
      | error e => right; rfl
      | ok resp => right; rfl

/-- `CreateCustomer` never issues a listing or a detail call. -/
theorem createCustomer_calls (env : Env) (st : ClientState) (customer : Customer)
    (c : Call) (hc : c ∈ (CreateCustomer env st customer).2.2) :
    c = Call.tokenGet ∨ c = Call.createPost (applyDefaults customer) := by
  rcases createCustomer_trace env st customer with h | h <;> rw [h] at hc <;>
    simp at hc <;> tauto

/-- The selection loop returns one of the scored entries. -/
theorem pickBest_mem (b : RecipientListItem × Rat)
    (l : List (RecipientListItem × Rat)) : pickBest b l ∈ b :: l := by
  induction l generalizing b with
  | nil => simp [pickBest]
  | cons sm rest ih =>
    have h := ih (if b.2 < sm.2 then sm else b)
    rw [show pickBest b (sm :: rest) = pickBest (if b.2 < sm.2 then sm else b) rest from rfl]
    rcases List.mem_cons.mp h with h1 | h1
    · rw [h1]
      by_cases hlt : b.2 < sm.2
      · rw [if_pos hlt]; exact List.mem_cons_of_mem _ (List.mem_cons_self _ _)
      · rw [if_neg hlt]; exact List.mem_cons_self _ _
    · exact List.mem_cons_of_mem _ (List.mem_cons_of_mem _ h1)

/-- The selection loop returns an entry of maximal score. -/
theorem pickBest_le (b : RecipientListItem × Rat)
    (l : List (RecipientListItem × Rat)) :
    ∀ x ∈ b :: l, x.2 ≤ (pickBest b l).2 := by
  induction l generalizing b with
  | nil =>
    intro x hx
    rcases List.mem_cons.mp hx with h | h
    · rw [h]; exact le_refl _
    · exact absurd h (List.not_mem_nil x)
  | cons sm rest ih =>
    intro x hx
    have hb : b.2 ≤ (if b.2 < sm.2 then sm else b).2 := by
      by_cases hlt : b.2 < sm.2
      · rw [if_pos hlt]; exact le_of_lt hlt
      · rw [if_neg hlt]
    have hs : sm.2 ≤ (if b.2 < sm.2 then sm else b).2 := by
      by_cases hlt : b.2 < sm.2
      · rw [if_pos hlt]
      · rw [if_neg hlt]; exact le_of_not_lt hlt
    have hhead : (if b.2 < sm.2 then sm else b).2 ≤
        (pickBest (if b.2 < sm.2 then sm else b) rest).2 :=
      ih (if b.2 < sm.2 then sm else b) _ (List.mem_cons_self _ _)
    rw [show pickBest b (sm :: rest) = pickBest (if b.2 < sm.2 then sm else b) rest from rfl]
    rcases List.mem_cons.mp hx with h | h
    · rw [h]; exact le_trans hb hhead
    · rcases List.mem_cons.mp h with h1 | h1
      · rw [h1]; exact le_trans hs hhead
      · exact ih (if b.2 < sm.2 then sm else b) x (List.mem_cons_of_mem _ h1)

/-- When `CreateCustomer` succeeds, the resolver forwards its outcome
verbatim. -/
theorem resolver_ok (env : Env) (st : ClientState) (customer : Customer)
    (id : String) (h : (CreateCustomer env st customer).1 = .ok id) :
    CreateCustomerOrGetExisting env st customer = CreateCustomer env st customer := by
  rcases hE : CreateCustomer env st customer with ⟨res, st1, tr⟩
  rw [hE] at h
  simp only at h
  unfold CreateCustomerOrGetExisting
  rw [hE, h]

/-- When `CreateCustomer` fails without the duplicate signal, the resolver
forwards its outcome verbatim. -/
theorem resolver_propagates (env : Env) (st : ClientState) (customer : Customer)
    (err : String) (h : (CreateCustomer env st customer).1 = .error err)
    (hdup : containsSubstr err dupSignal = false) :
    CreateCustomerOrGetExisting env st customer = CreateCustomer env st customer := by
  rcases hE : CreateCustomer env st customer with ⟨res, st1, tr⟩
  rw [hE] at h
  simp only at h
  unfold CreateCustomerOrGetExisting
  rw [hE, h]
  simp only [hdup]
  rw [if_neg (by simp)]

/-- When the duplicate signal fires but the listing itself fails, the
resolver reports the wrapped listing error after the listing call. -/
theorem resolver_listerr (env : Env) (st st1 : ClientState) (customer : Customer)
    (err : String) (tr : List Call) (e : String)
    (hE : CreateCustomer env st customer = (.error err, st1, tr))
    (hdup : containsSubstr err dupSignal = true)
    (hlist : env.listOutcome = .error e) :
    CreateCustomerOrGetExisting env st customer =
      (.error ("müşteri listesi alınamadı: " ++ e), st1, tr ++ [Call.listPost 500]) := by
  have hGRL : GetRecipientList env 500 = (.error e, [Call.listPost 500]) := by
    unfold GetRecipientList
    rw [hlist, if_neg (by norm_num : ¬ (500 : Int) ≤ 0)]
  unfold CreateCustomerOrGetExisting
  rw [hE]
  simp only [hdup, if_pos]
  rw [hGRL]

/-- When the duplicate signal fires and the listing succeeds, the resolver
reduces to the 0/1/many branch over the exact-name matches. -/
theorem resolver_fallback (env : Env) (st st1 : ClientState) (customer : Customer)
    (err : String) (tr : List Call) (data : List RecipientListItem)
    (hE : CreateCustomer env st customer = (.error err, st1, tr))
    (hdup : containsSubstr err dupSignal = true)
    (hlist : env.listOutcome = .ok data) :
    CreateCustomerOrGetExisting env st customer =
      match matchesOf data customer with
      | [] => (.error ("müşteri zaten kayıtlı ancak listede bulunamadı: " ++ customer.Name),
               st1, tr ++ [Call.listPost 500])
      | [m] => (.ok (toString m.IdAlici), st1, tr ++ [Call.listPost 500])
      | m0 :: m1 :: rest =>
        match scoredOf env customer (m0 :: m1 :: rest) with
        | [] => (.ok (toString m0.IdAlici), st1, tr ++ [Call.listPost 500]
                  ++ (m0 :: m1 :: rest).map (fun m => Call.detailGet m.IdAlici))
        | b :: restScored =>
          (.ok (toString (pickBest b restScored).1.IdAlici), st1, tr ++ [Call.listPost 500]
            ++ (m0 :: m1 :: rest).map (fun m => Call.detailGet m.IdAlici)) := by
  have hGRL : GetRecipientList env 500 = (.ok data, [Call.listPost 500]) := by
    unfold GetRecipientList
    rw [hlist, if_neg (by norm_num : ¬ (500 : Int) ≤ 0)]
  unfold CreateCustomerOrGetExisting
  rw [hE]
  simp only [hdup, if_pos]
  rw [hGRL]

/-! ## Claim C1 — the duplicate signal gates the fallback path -/

/-- C1: the resolver issues a listing call exactly when `CreateCustomer`
failed with an error containing the fixed substring; any other
`CreateCustomer` error is propagated verbatim, with no listing and no
detail fetch. -/
theorem createCustomerOrGetExisting_duplicate_gate (env : Env) (st : ClientState)
    (customer : Customer) :
    ((∃ l, Call.listPost l ∈ (CreateCustomerOrGetExisting env st customer).2.2) ↔
      (∃ err, (CreateCustomer env st customer).1 = .error err ∧
        containsSubstr err dupSignal = true))
    ∧ (∀ err, (CreateCustomer env st customer).1 = .error err →
        containsSubstr err dupSignal = false →
        CreateCustomerOrGetExisting env st customer = CreateCustomer env st customer
        ∧ (∀ l, Call.listPost l ∉ (CreateCustomerOrGetExisting env st customer).2.2)
        ∧ (∀ i, Call.detailGet i ∉ (CreateCustomerOrGetExisting env st customer).2.2)) := by
  have hforward : CreateCustomerOrGetExisting env st customer = CreateCustomer env st customer →
      (∀ l, Call.listPost l ∉ (CreateCustomerOrGetExisting env st customer).2.2)
      ∧ (∀ i, Call.detailGet i ∉ (CreateCustomerOrGetExisting env st customer).2.2) := by
    intro heq
    constructor
    · intro l hl
      rw [heq] at hl
      rcases createCustomer_calls env st customer _ hl with h | h <;> exact Call.noConfusion h
    · intro i hi
      rw [heq] at hi
      rcases createCustomer_calls env st customer _ hi with h | h <;> exact Call.noConfusion h
  constructor
  · constructor
    · rintro ⟨l, hl⟩
      rcases hres : (CreateCustomer env st customer).1 with err | id
      · by_cases hdup : containsSubstr err dupSignal = true
        · exact ⟨err, rfl, hdup⟩
        · have heq := resolver_propagates env st customer err hres
            (Bool.not_eq_true _ ▸ hdup)
          exact absurd hl ((hforward heq).1 l)
      · have heq := resolver_ok env st customer id hres
        exact absurd hl ((hforward heq).1 l)
    · rintro ⟨err, herr, hdup⟩
      rcases hE : CreateCustomer env st customer with ⟨res, st1, tr⟩
      rw [hE] at herr
      simp only at herr
      subst herr
      rcases hlist : env.listOutcome with e | data
      · rw [resolver_listerr env st st1 customer err tr e hE hdup hlist]
        exact ⟨500, by simp⟩
      · rw [resolver_fallback env st st1 customer err tr data hE hdup hlist]
        rcases matchesOf data customer with _ | ⟨m0, _ | ⟨m1, rest⟩⟩
        · exact ⟨500, by simp⟩
        · exact ⟨500, by simp⟩
        · exact ⟨500, by simp [scoredOf]⟩
  · intro err herr hdup
    have heq := resolver_propagates env st customer err herr hdup
    exact ⟨heq, hforward heq⟩

/-- Environment of the propagation witness: the token fetch itself fails,
so `CreateCustomer` errors without the duplicate signal. -/
def envTokFail : Env :=
  { tokenResult := .error "ağ hatası"
  , createOutcome := .error "kullanılmıyor"
  , listOutcome := .error "kullanılmıyor"
  , detailHtml := fun _ => .error "kullanılmıyor" }

/-- Witness: C1 applied to a concrete non-duplicate error. -/
theorem createCustomerOrGetExisting_duplicate_gate_witness :
    CreateCustomerOrGetExisting envTokFail exSt custC3 = CreateCustomer envTokFail exSt custC3
    ∧ (∀ l, Call.listPost l ∉ (CreateCustomerOrGetExisting envTokFail exSt custC3).2.2)
    ∧ (∀ i, Call.detailGet i ∉ (CreateCustomerOrGetExisting envTokFail exSt custC3).2.2) :=
  (createCustomerOrGetExisting_duplicate_gate envTokFail exSt custC3).2
    "token güncellenemedi: ağ hatası" rfl rfl

/-! ## Claim C2 — one id or an error, and the many-candidate ranking -/

/-- C2: the resolver returns exactly one id or an error, and in the
many-candidate branch the returned id belongs to a scored candidate of
maximal composite score, the scored list covering every match (so the
unscored first-match fallback cannot be reached by skipped ranking). -/
theorem createCustomerOrGetExisting_ranking (env : Env) (st : ClientState)
    (customer : Customer) :
    ((∃ id, (CreateCustomerOrGetExisting env st customer).1 = .ok id)
      ∨ (∃ e, (CreateCustomerOrGetExisting env st customer).1 = .error e))
    ∧ (∀ err data m0 m1 rest,
        (CreateCustomer env st customer).1 = .error err →
        containsSubstr err dupSignal = true →
        env.listOutcome = .ok data →
        matchesOf data customer = m0 :: m1 :: rest →
        (scoredOf env customer (m0 :: m1 :: rest)).length = (m0 :: m1 :: rest).length
        ∧ ∃ best ∈ scoredOf env customer (m0 :: m1 :: rest),
            (CreateCustomerOrGetExisting env st customer).1 = .ok (toString best.1.IdAlici)
            ∧ ∀ sm ∈ scoredOf env customer (m0 :: m1 :: rest), sm.2 ≤ best.2) := by
  constructor
  · rcases h : (CreateCustomerOrGetExisting env st customer).1 with e | id
    · exact Or.inr ⟨e, rfl⟩
    · exact Or.inl ⟨id, rfl⟩
  · intro err data m0 m1 rest herr hdup hlist hm
    rcases hE : CreateCustomer env st customer with ⟨res, st1, tr⟩
    rw [hE] at herr
    simp only at herr
    subst herr
    have hred := resolver_fallback env st st1 customer err tr data hE hdup hlist
    rw [hm] at hred
    simp only [scoredOf, List.map] at hred ⊢
    refine ⟨by simp, ⟨pickBest (m0, scoreMatch env customer m0)
      ((m1 :: rest).map (fun m => (m, scoreMatch env customer m))), ?_, ?_, ?_⟩⟩
    · exact pickBest_mem _ _
    · rw [hred]; rfl
    · exact pickBest_le _ _

/-- Witness: C2 applied to the worked two-candidate example. -/
theorem createCustomerOrGetExisting_ranking_witness :
    (scoredOf envC3 custC3 [cand1, cand2]).length = ([cand1, cand2] : List RecipientListItem).length
    ∧ ∃ best ∈ scoredOf envC3 custC3 [cand1, cand2],
        (CreateCustomerOrGetExisting envC3 exSt custC3).1 = .ok (toString best.1.IdAlici)
        ∧ ∀ sm ∈ scoredOf envC3 custC3 [cand1, cand2], sm.2 ≤ best.2 :=
  (createCustomerOrGetExisting_ranking envC3 exSt custC3).2
    errC3 [cand1, cand2] cand1 cand2 [] rfl rfl rfl rfl

/-! ## Claim C4 — a unique match short-circuits without detail fetches -/

/-- C4: with exactly one exact-name match the resolver returns that
candidate's id and issues no detail call. -/
theorem createCustomerOrGetExisting_single_match (env : Env) (st : ClientState)
    (customer : Customer) (err : String) (data : List RecipientListItem)
    (m : RecipientListItem)
    (herr : (CreateCustomer env st customer).1 = .error err)
    (hdup : containsSubstr err dupSignal = true)
    (hlist : env.listOutcome = .ok data)
    (hm : matchesOf data customer = [m]) :
    (CreateCustomerOrGetExisting env st customer).1 = .ok (toString m.IdAlici)
    ∧ ∀ i, Call.detailGet i ∉ (CreateCustomerOrGetExisting env st customer).2.2 := by
  rcases hE : CreateCustomer env st customer with ⟨res, st1, tr⟩
  rw [hE] at herr
  simp only at herr
  subst herr
  have hred := resolver_fallback env st st1 customer err tr data hE hdup hlist
  rw [hm] at hred
  rw [hred]
  refine ⟨rfl, ?_⟩
  intro i hi
  have hi' : Call.detailGet i ∈ tr ++ [Call.listPost 500] := hi
  rcases List.mem_append.mp hi' with hi1 | hi1
  · have := createCustomer_calls env st customer _ (by rw [hE]; exact hi1)
    rcases this with h | h <;> exact Call.noConfusion h
  · exact Call.noConfusion (List.mem_singleton.mp hi1)

/-- Environment of the single-match witness: the listing returns exactly
one candidate with the customer's name. -/
def envSingle : Env := { envC3 with listOutcome := .ok [cand1] }

/-- Witness: C4 applied to a concrete one-candidate listing. -/
theorem createCustomerOrGetExisting_single_match_witness :
    (CreateCustomerOrGetExisting envSingle exSt custC3).1 = .ok (toString cand1.IdAlici)
    ∧ ∀ i, Call.detailGet i ∉ (CreateCustomerOrGetExisting envSingle exSt custC3).2.2 :=
  createCustomerOrGetExisting_single_match envSingle exSt custC3
    errC3 [cand1] cand1 rfl rfl rfl rfl

/-! ## Claim C5 — no match yields the not-found error -/

/-- C5: when the duplicate fallback runs and no listed name matches, the
resolver returns the not-found error (and hence no id). -/
theorem createCustomerOrGetExisting_no_match (env : Env) (st : ClientState)
    (customer : Customer) (err : String) (data : List RecipientListItem)
    (herr : (CreateCustomer env st customer).1 = .error err)
    (hdup : containsSubstr err dupSignal = true)
    (hlist : env.listOutcome = .ok data)
    (hm : matchesOf data customer = []) :
    (CreateCustomerOrGetExisting env st customer).1 =
      .error ("müşteri zaten kayıtlı ancak listede bulunamadı: " ++ customer.Name)
    ∧ ∀ id, (CreateCustomerOrGetExisting env st customer).1 ≠ .ok id := by
  rcases hE : CreateCustomer env st customer with ⟨res, st1, tr⟩
  rw [hE] at herr
  simp only at herr
  subst herr
  have hred := resolver_fallback env st st1 customer err tr data hE hdup hlist
  rw [hm] at hred
  rw [hred]
  exact ⟨rfl, fun id h => Except.noConfusion h⟩

/-- Environment of the no-match witness: the listing returns a candidate
with a different name. -/
def envNoMatch : Env :=
  { envC3 with listOutcome := .ok [{ cand1 with AliciAdi := "başka" }] }

/-- Witness: C5 applied to a concrete listing without a name match. -/
theorem createCustomerOrGetExisting_no_match_witness :
    (CreateCustomerOrGetExisting envNoMatch exSt custC3).1 =
      .error ("müşteri zaten kayıtlı ancak listede bulunamadı: " ++ custC3.Name)
    ∧ ∀ id, (CreateCustomerOrGetExisting envNoMatch exSt custC3).1 ≠ .ok id :=
  createCustomerOrGetExisting_no_match envNoMatch exSt custC3
    errC3 [{ cand1 with AliciAdi := "başka" }] rfl rfl rfl rfl

/-! ## Claims C6 and C7 — validation, defaults and the token refresh -/

/-- The validation trigger exactly as C6 words it: the email requirement
is tested against the sending type after the electronic default has been
applied to an unset sending type. -/
def validationTriggerPerClaim (c : Customer) : Bool :=
  c.Name = "" || c.TaxNumber = "" ||
    ((applyDefaults c).SendingType = 1 && c.Email = "")

/-- A customer with an unset sending type and an empty email. -/
def custNoEmail : Customer :=
  { emptyCustomer with Name := "Ahmet", TaxNumber := "11111111111" }

/-- A customer with an empty name (and otherwise valid fields). -/
def custNoName : Customer :=
  { emptyCustomer with TaxNumber := "11111111111", Email := "a@b.c" }

/-- An environment in which the token refresh and the creation POST both
succeed, the latter returning id 7. -/
def envCreateOk : Env :=
  { tokenResult := .ok "tok"
  , createOutcome := .ok { errorField := none, errorMessageField := none
                         , idAlici := some 7, rawBody := "" }
  , listOutcome := .error "kullanılmıyor"
  , detailHtml := fun _ => .error "kullanılmıyor" }

/-- Counterexample to C6: for an unset sending type (0) with an empty
email the claim demands a local validation failure (the defaulted sending
type is electronic), but the code validates the raw sending type, accepts
the customer and submits it successfully. -/
theorem createCustomer_validation_cex :
    validationTriggerPerClaim custNoEmail = true
    ∧ localValidationError custNoEmail = none
    ∧ (CreateCustomer envCreateOk exSt custNoEmail).1 = .ok "7" :=
  ⟨rfl, rfl, rfl⟩

/-- C6 (amended): the local validation error is raised exactly when the
name is empty, the tax number is empty, or the email is empty while the
sending type is electronic as provided (before defaulting — an unset
sending type with an empty email passes); the defaults customer-type 1,
sending-type 1, tax-office id "-1" and building number "1" are applied to
unset fields on the submitted form, after validation. -/
theorem createCustomer_validation_and_defaults (customer : Customer) :
    (localValidationError customer ≠ none ↔
      (customer.Name = "" ∨ customer.TaxNumber = "" ∨
        (customer.SendingType = 1 ∧ customer.Email = "")))
    ∧ (applyDefaults customer).CustomerType =
        (if customer.CustomerType = 0 then 1 else customer.CustomerType)
    ∧ (applyDefaults customer).SendingType =
        (if customer.SendingType = 0 then 1 else customer.SendingType)
    ∧ (applyDefaults customer).TaxOfficeID =
        (if customer.TaxOfficeID = "" then "-1" else customer.TaxOfficeID)
    ∧ (applyDefaults customer).BuildingNo =
        (if customer.BuildingNo = "" then "1" else customer.BuildingNo)
    ∧ (∀ env st t msg, env.tokenResult = .ok t →
        localValidationError customer = some msg →
        (CreateCustomer env st customer).1 = .error msg)
    ∧ (∀ env st t, env.tokenResult = .ok t →
        localValidationError customer = none →
        (CreateCustomer env st customer).2.2 =
          [Call.tokenGet, Call.createPost (applyDefaults customer)]) := by
  refine ⟨⟨?_, ?_⟩, ?_, ?_, ?_, ?_, ?_, ?_⟩
  · intro h
    unfold localValidationError at h
    split_ifs at h with h1 h2 h3
    · exact Or.inl h1
    · exact Or.inr (Or.inl h2)
    · simp only [Bool.and_eq_true, decide_eq_true_eq] at h3
      exact Or.inr (Or.inr h3)
    · exact absurd rfl h
  · intro h
    unfold localValidationError
    split_ifs with h1 h2 h3
    · simp
    · simp
    · simp
    · rcases h with h | h | h
      · exact absurd h h1
      · exact absurd h h2
      · exact absurd (by simp [h.1, h.2]) h3
  · simp only [applyDefaults]; split_ifs <;> rfl
  · simp only [applyDefaults]; split_ifs <;> rfl
  · simp only [applyDefaults]; split_ifs <;> rfl
  · simp only [applyDefaults]; split_ifs <;> rfl
  · intro env st t msg htok hval
    unfold CreateCustomer
    rw [htok, hval]
  · intro env st t htok hval
    unfold CreateCustomer
    rw [htok, hval]
    cases env.createOutcome <;> rfl

/-- Witness: the amended C6 statement applied to concrete customers: the
validation error fires on the empty name, and the valid customer's POST
carries the defaulted form. -/
theorem createCustomer_validation_and_defaults_witness :
    (CreateCustomer envCreateOk exSt custNoName).1 = .error "müşteri adı zorunludur"
    ∧ (CreateCustomer envCreateOk exSt custC3).2.2 =
        [Call.tokenGet, Call.createPost (applyDefaults custC3)] :=
  ⟨(createCustomer_validation_and_defaults custNoName).2.2.2.2.2.1
      envCreateOk exSt "tok" "müşteri adı zorunludur" rfl rfl,
   (createCustomer_validation_and_defaults custC3).2.2.2.2.2.2
      envCreateOk exSt "tok" rfl rfl⟩

/-- Counterexample to C7: with an empty name the local validation error is
returned, yet the trace already contains the token-refresh GET and the
stored token has been overwritten by it. -/
theorem createCustomer_token_before_validation_cex :
    (CreateCustomer envCreateOk exSt custNoName).1 = .error "müşteri adı zorunludur"
    ∧ (CreateCustomer envCreateOk exSt custNoName).2.2 = [Call.tokenGet]
    ∧ (CreateCustomer envCreateOk exSt custNoName).2.1.token = "tok"
    ∧ exSt.token ≠ "tok" :=
  ⟨rfl, rfl, rfl, by decide⟩

/-- C7 (amended): on a customer missing a required field `CreateCustomer`
stops before the create POST — its only network call is the token-refresh
GET, which precedes validation and, when it succeeds, overwrites the
stored token. -/
theorem createCustomer_validation_stops_before_post (env : Env)
    (st : ClientState) (customer : Customer) (msg : String)
    (hval : localValidationError customer = some msg) :
    (∀ t, env.tokenResult = .ok t →
        CreateCustomer env st customer =
          (.error msg, { token := t }, [Call.tokenGet]))
    ∧ (∀ f, Call.createPost f ∉ (CreateCustomer env st customer).2.2)
    ∧ (∀ l, Call.listPost l ∉ (CreateCustomer env st customer).2.2)
    ∧ (∀ i, Call.detailGet i ∉ (CreateCustomer env st customer).2.2) := by
  have htr : (CreateCustomer env st customer).2.2 = [Call.tokenGet] := by
    unfold CreateCustomer
    cases env.tokenResult with
    | error e => rfl
    | ok t => rw [hval]
  refine ⟨?_, ?_, ?_, ?_⟩
  · intro t htok
    unfold CreateCustomer
    rw [htok, hval]
  · intro f hf
    rw [htr] at hf
    exact Call.noConfusion (List.mem_singleton.mp hf)
  · intro l hl
    rw [htr] at hl
    exact Call.noConfusion (List.mem_singleton.mp hl)
  · intro i hi
    rw [htr] at hi
    exact Call.noConfusion (List.mem_singleton.mp hi)

/-- Witness: the amended C7 statement applied to the empty-name
customer. -/
theorem createCustomer_validation_stops_before_post_witness :
    CreateCustomer envCreateOk exSt custNoName =
      (.error "müşteri adı zorunludur", { token := "tok" }, [Call.tokenGet])
    ∧ ∀ f, Call.createPost f ∉ (CreateCustomer envCreateOk exSt custNoName).2.2 :=
  ⟨(createCustomer_validation_stops_before_post envCreateOk exSt custNoName
      "müşteri adı zorunludur" rfl).1 "tok" rfl,
   (createCustomer_validation_stops_before_post envCreateOk exSt custNoName
      "müşteri adı zorunludur" rfl).2.1⟩

/-! ## Claim C8 — the district search order -/

/-- The first scan equals a single `find?` with the interleaved
merkez-or-exact predicate. -/
theorem districtScanOne_eq_find (flag : Bool) (normalized : String)
    (l : List District) :
    districtScanOne flag normalized l =
      (l.find? (fun d => (containsSubstr (normalizeString d.Name) "merkez" && flag)
        || normalizeString d.Name = normalized)).map (fun d => d.ID) := by
  induction l with
  | nil => rfl
  | cons d rest ih =>
    by_cases h1 : (containsSubstr (normalizeString d.Name) "merkez" && flag) = true
    · simp [districtScanOne, List.find?, h1]
    · by_cases h2 : normalizeString d.Name = normalized
      · simp [districtScanOne, List.find?, h1, h2]
      · simp [districtScanOne, List.find?, h1, h2, ih]

/-- The second scan equals `find?` with the merkez-and-province
predicate. -/
theorem districtScanMerkezCity_eq_find (cityNorm : String) (l : List District) :
    districtScanMerkezCity cityNorm l =
      (l.find? (fun d => containsSubstr (normalizeString d.Name) "merkez"
        && containsSubstr (normalizeString d.Name) cityNorm)).map (fun d => d.ID) := by
  induction l with
  | nil => rfl
  | cons d rest ih =>
    by_cases h1 : (containsSubstr (normalizeString d.Name) "merkez"
        && containsSubstr (normalizeString d.Name) cityNorm) = true
    · simp [districtScanMerkezCity, List.find?, h1]
    · simp [districtScanMerkezCity, List.find?, h1, ih]

/-- The third scan equals `find?` with the merkez predicate. -/
theorem districtScanMerkez_eq_find (l : List District) :
    districtScanMerkez l =
      (l.find? (fun d => containsSubstr (normalizeString d.Name) "merkez")).map
        (fun d => d.ID) := by
  induction l with
  | nil => rfl
  | cons d rest ih =>
    by_cases h1 : containsSubstr (normalizeString d.Name) "merkez" = true
    · simp [districtScanMerkez, List.find?, h1]
    · simp [districtScanMerkez, List.find?, h1, ih]

/-- The district search exactly as C8 words it: on central intent (the
input contains "merkez") or an input equal to the province name, first any
district containing "merkez" and the province name, then any district
containing "merkez", and otherwise the exact normalized match; -1 when
nothing matches or the city id is unknown. -/
def districtSearchPerClaim (data : IlIlceData) (cityID districtName : String) : Int :=
  match lookupDistricts data cityID with
  | none => -1
  | some districts =>
    let normalized := normalizeString districtName
    let cityName := findCityNameLoop data.cities cityID
    let centralIntent := containsSubstr districtName "merkez"
      || (cityName ≠ "" && normalized = normalizeString cityName)
    if centralIntent then
      match districts.find? (fun d => containsSubstr (normalizeString d.Name) "merkez"
          && containsSubstr (normalizeString d.Name) (normalizeString cityName)) with
      | some d => d.ID
      | none =>
        match districts.find? (fun d => containsSubstr (normalizeString d.Name) "merkez") with
        | some d => d.ID
        | none =>
          match districts.find? (fun d => normalizeString d.Name = normalized) with
          | some d => d.ID
          | none => -1
    else
      match districts.find? (fun d => normalizeString d.Name = normalized) with
      | some d => d.ID
      | none => -1

/-- The district search as the code actually behaves (the amended C8): one
interleaved pass returns the first district that either contains "merkez"
(only when the raw input contains the lowercase "merkez") or matches the
normalized input exactly; only when that pass fails and the normalized
input equals the province's normalized name are the merkez-and-province
and then any-merkez fallbacks tried; otherwise -1, and -1 for an unknown
city id. -/
def districtSearchAmended (data : IlIlceData) (cityID districtName : String) : Int :=
  match lookupDistricts data cityID with
  | none => -1
  | some districts =>
    let normalized := normalizeString districtName
    let flag := containsSubstr districtName "merkez"
    match districts.find? (fun d =>
        (containsSubstr (normalizeString d.Name) "merkez" && flag)
        || normalizeString d.Name = normalized) with
    | some d => d.ID
    | none =>
      let cityName := findCityNameLoop data.cities cityID
      if cityName ≠ "" then
        if normalized = normalizeString cityName then
          match districts.find? (fun d => containsSubstr (normalizeString d.Name) "merkez"
              && containsSubstr (normalizeString d.Name) (normalizeString cityName)) with
          | some d => d.ID
          | none =>
            match districts.find? (fun d =>
                containsSubstr (normalizeString d.Name) "merkez") with
            | some d => d.ID
            | none => -1
        else -1
      else -1

/-- A one-province dataset on which the claimed and the actual search
order disagree. -/
def cexData : IlIlceData :=
  { cities := [{ ID := "1", Name := "x" }]
  , districts := [("1", [{ ID := 10, Name := "a merkez" }, { ID := 20, Name := "x merkez" }])] }

/-- Counterexample to C8: for the central-intent input "merkez" the
claimed order prefers the district containing the province name (id 20),
but the code returns the first district containing "merkez" (id 10). -/
theorem getDistrictID_order_cex :
    GetDistrictID cexData "1" "merkez" = 10
    ∧ districtSearchPerClaim cexData "1" "merkez" = 20
    ∧ GetDistrictID cexData "1" "merkez" ≠ districtSearchPerClaim cexData "1" "merkez" :=
  ⟨rfl, rfl, by decide⟩

/-- C8 (amended): `GetDistrictID` coincides, on every dataset and input,
with the amended search description. -/
theorem getDistrictID_characterisation (data : IlIlceData)
    (cityID districtName : String) :
    GetDistrictID data cityID districtName =
      districtSearchAmended data cityID districtName := by
  unfold GetDistrictID districtSearchAmended
  cases lookupDistricts data cityID with
  | none => rfl
  | some districts =>
    simp only
    have hm : normalizeString "Merkez" = "merkez" := rfl
    rw [hm, districtScanOne_eq_find]
    cases h1 : districts.find? (fun d =>
        (containsSubstr (normalizeString d.Name) "merkez"
          && containsSubstr districtName "merkez")
        || normalizeString d.Name = normalizeString districtName) with
    | some d => rfl
    | none =>
      simp only [Option.map_none']
      by_cases hc : findCityNameLoop data.cities cityID = ""
      · rw [if_neg (fun hh => hh hc), if_neg (fun hh => hh hc)]
      · rw [if_pos hc, if_pos hc]
        by_cases hn : normalizeString districtName =
            normalizeString (findCityNameLoop data.cities cityID)
        · rw [if_pos hn, if_pos hn]
          rw [districtScanMerkezCity_eq_find]
          cases h2 : districts.find? (fun d =>
              containsSubstr (normalizeString d.Name) "merkez"
              && containsSubstr (normalizeString d.Name)
                  (normalizeString (findCityNameLoop data.cities cityID))) with
          | some d => rfl
          | none =>
            simp only [Option.map_none']
            rw [districtScanMerkez_eq_find]
            cases h3 : districts.find? (fun d =>
                containsSubstr (normalizeString d.Name) "merkez") with
            | some d => rfl
            | none => rfl
        · rw [if_neg hn, if_neg hn]

end Nettefatura
